import Mathlib

/-!
Verification of the Moltbook API crawler (scripts/fetch_moltbook_api.py).

This file gives a shallow embedding of the pure core of the crawler —
payload-shape extraction, pagination arithmetic and resolution, the
retry/backoff logic of the JSON fetcher, the comment-tree flattening, and
the per-page state transitions of the post/comment traversal loops — and
proves properties of that embedding.

Modelling conventions:
- JSON payloads are the inductive type Json; Python truthiness is jsonTruthy.
- A fetch result (Optional dict in Python) is Option Json; a fetch that
  raised through all retries is none.
- Python sets of id strings (the source annotates its id sets as Set[str])
  are modelled as List String with membership; insertion order is irrelevant
  to every property proved here.
- The network is an oracle: a function from the attempt number to the
  outcome of that HTTP attempt. Rate-limiter waits are not modelled; the
  sleep trace records only the retry backoff and the DNS network backoff.
- Effects that cannot influence the proved properties (structured log lines,
  JSONL appends of rows, the asyncio task scheduling) are either elided or
  recorded as result fields; the mutable crawl state is passed explicitly.
-/

namespace Moltbook

/-- JSON values as the crawler sees them after response.json(). Numbers are
modelled as integers; no claim depends on float payloads. -/
inductive Json where
  | null : Json
  | bool (b : Bool) : Json
  | num (n : Int) : Json
  | str (s : String) : Json
  | arr (xs : List Json) : Json
  | obj (fields : List (String × Json)) : Json

/-- Python truthiness of a JSON value: None, False, 0, empty string, empty
list and empty dict are falsy. -/
def jsonTruthy : Json → Bool
  | .null => false
  | .bool b => b
  | .num n => n != 0
  | .str s => s != ""
  | .arr xs => !xs.isEmpty
  | .obj fs => !fs.isEmpty

/-- Association-list lookup, the model of dict.get (a parsed-JSON dict has
no duplicate keys, so first-match lookup is dict lookup). -/
def alistGet {α : Type} : List (String × α) → String → Option α
  | [], _ => none
  | (k, v) :: rest, key => if k = key then some v else alistGet rest key

/-- dict.get on a JSON value, returning null (None) for a missing key. Used
only where the source has already checked isinstance(..., dict). -/
def jget (p : Json) (k : String) : Json :=
  match p with
  | .obj fs => (alistGet fs k).getD Json.null
  | _ => Json.null

/-- LIST_KEYS from the source: candidate keys under which a listing payload
may nest its row list. -/
def LIST_KEYS : List String := ["data", "results", "items", "posts", "comments", "submolts"]

/-- First key of the candidate list that is present with a list value. -/
def firstListKey (fs : List (String × Json)) : List String → Option (List Json)
  | [] => none
  | k :: ks =>
    match alistGet fs k with
    | some (Json.arr xs) => some xs
    | _ => firstListKey fs ks

/-- extract_list_and_flag: a bare list payload, or the first LIST_KEYS entry
holding a list, is the row list (flag true); otherwise no recognizable list
(flag false). The flag does not require the list to be non-empty. -/
def extract_list_and_flag : Json → List Json × Bool
  | .arr xs => (xs, true)
  | .obj fs =>
    match firstListKey fs LIST_KEYS with
    | some xs => (xs, true)
    | none => ([], false)
  | _ => ([], false)

/-- extract_list from the source. -/
def extract_list (p : Json) : List Json := (extract_list_and_flag p).1

/-- extract_has_more: the optional pagination.hasMore flag, read with Python
bool() truthiness. -/
def extract_has_more : Json → Option Bool
  | .obj fs =>
    match alistGet fs "pagination" with
    | some (Json.obj pf) =>
      match alistGet pf "hasMore" with
      | some v => some (jsonTruthy v)
      | none => none
    | _ => none
  | _ => none

/-- Truthiness of an Optional str (absent and empty string are falsy). -/
def strTruthy : Option String → Bool
  | some s => s != ""
  | none => false

/-- Char-list test: does the first list start with the second? -/
def charsStartWith : List Char → List Char → Bool
  | _, [] => true
  | [], _ :: _ => false
  | c :: s, p :: ps => c = p && charsStartWith s ps

/-- Char-list test: does the pattern occur contiguously in the list?
Model of the Python expression pat in msg. -/
def charsContainSub : List Char → List Char → Bool
  | [], pat => pat.isEmpty
  | c :: rest, pat => charsStartWith (c :: rest) pat || charsContainSub rest pat

/-- Python substring test pat in s. -/
def containsSubstr (s pat : String) : Bool := charsContainSub s.data pat.data

/-- Python str.endswith. -/
def strEnds (s pat : String) : Bool := charsStartWith s.data.reverse pat.data.reverse

/-- pagination_start from the source: page-mode cursors start at 1, all
others at 0. -/
def pagination_start (mode : String) : Int := if mode = "page" then 1 else 0

/-- The Pagination dataclass: a mode string, the page-size limit and the
starting cursor. -/
structure Pagination where
  mode : String
  limit : Int
  start : Int
deriving DecidableEq, Repr

/-- Pagination.params: the query parameters sent for one page at the given
cursor (only the integer-valued parameters appear; callers merge in their
own string parameters such as sort separately). -/
def Pagination.params (p : Pagination) (cursor : Int) : List (String × Int) :=
  if p.mode = "limit" then [("limit", p.limit)]
  else if p.mode = "page" then [("limit", p.limit), ("page", cursor)]
  else [("limit", p.limit), ("offset", cursor)]

/-- Pagination.next_cursor: limit mode never advances, page mode adds one,
offset mode adds the row count, falling back to the page-size limit when the
count is zero. -/
def Pagination.next_cursor (p : Pagination) (cursor : Int) (count : Nat) : Int :=
  if p.mode = "limit" then cursor
  else if p.mode = "page" then cursor + 1
  else cursor + (if 0 < count then (count : Int) else p.limit)

/-- The pagination-relevant slice of the parsed command-line arguments. -/
structure FetchArgs where
  submolts_pagination : String
  submolts_page_size : Int
  submolt_posts_pagination : String
  submolt_posts_page_size : Int
  global_posts_pagination : String
  global_posts_page_size : Int
  comments_pagination : String
  comments_page_size : Int

/-- ApiFetcher.__init__: the submolt-listing Pagination. -/
def mk_submolt_page (a : FetchArgs) : Pagination :=
  ⟨a.submolts_pagination, a.submolts_page_size,
    pagination_start (if a.submolts_pagination ≠ "auto" then a.submolts_pagination else "offset")⟩

/-- ApiFetcher.__init__: the per-submolt posts Pagination. -/
def mk_submolt_posts_page (a : FetchArgs) : Pagination :=
  ⟨a.submolt_posts_pagination, a.submolt_posts_page_size,
    pagination_start
      (if a.submolt_posts_pagination ≠ "auto" then a.submolt_posts_pagination else "page")⟩

/-- ApiFetcher.__init__: the global posts Pagination. -/
def mk_global_posts_page (a : FetchArgs) : Pagination :=
  ⟨a.global_posts_pagination, a.global_posts_page_size,
    pagination_start
      (if a.global_posts_pagination ≠ "auto" then a.global_posts_pagination else "page")⟩

/-- ApiFetcher.__init__: the comments Pagination; its limit is capped
at 500. -/
def mk_comment_page (a : FetchArgs) : Pagination :=
  ⟨a.comments_pagination, min a.comments_page_size 500,
    pagination_start (if a.comments_pagination ≠ "auto" then a.comments_pagination else "page")⟩

/-- Association-list update, the model of dict assignment d[k] = v. -/
def setKey {α : Type} : List (String × α) → String → α → List (String × α)
  | [], k, v => [(k, v)]
  | (k', v') :: rest, k, v =>
    if k' = k then (k, v) :: rest else (k', v') :: setKey rest k v

/-- Probe parameters of _detect_pagination_mode for the page convention. -/
def probe_params_page (base : List (String × Int)) (page_size : Int) : List (String × Int) :=
  setKey (setKey base "limit" page_size) "page" 1

/-- Probe parameters of _detect_pagination_mode for the offset convention. -/
def probe_params_offset (base : List (String × Int)) (page_size : Int) : List (String × Int) :=
  setKey (setKey base "limit" page_size) "offset" 0

/-- The probe-result destructuring in _detect_pagination_mode: a falsy or
absent payload yields no rows and a false flag. -/
def probe_rows_flag : Option Json → List Json × Bool
  | some p => if jsonTruthy p then extract_list_and_flag p else ([], false)
  | none => ([], false)

/-- Decision of _detect_pagination_mode, as a function of the two probe
payloads (page probe first, offset probe second). -/
def detect_pagination_mode (payload_page payload_offset : Option Json) : String :=
  let rp := probe_rows_flag payload_page
  let ro := probe_rows_flag payload_offset
  if rp.2 ∧ ¬ ro.2 then "page"
  else if ro.2 ∧ ¬ rp.2 then "offset"
  else if rp.2 ∧ ro.2 then (if rp.1.length ≤ ro.1.length then "offset" else "page")
  else "page"

/-- Result of ensure_pagination_mode: the resolved mode, the updated
Pagination object, the updated state-level pagination cache, and whether the
probe (two extra requests) was executed. -/
structure EnsureOut where
  mode : String
  pag : Pagination
  statePag : List (String × String)
  probed : Bool
deriving DecidableEq, Repr

/-- ensure_pagination_mode: an explicitly configured mode is recorded
without probing; else a cached mode of page/offset/limit is reused without
probing; else the endpoint is probed and the answer cached. The two probe
payloads stand for the requests _detect_pagination_mode would issue. -/
def ensure_pagination_mode (key : String) (pg : Pagination)
    (statePag : List (String × String)) (probe_page probe_offset : Option Json) : EnsureOut :=
  if pg.mode ≠ "auto" then
    ⟨pg.mode, pg, setKey statePag key pg.mode, false⟩
  else
    match alistGet statePag key with
    | some m =>
      if m = "page" ∨ m = "offset" ∨ m = "limit" then ⟨m, { pg with mode := m }, statePag, false⟩
      else
        let m' := detect_pagination_mode probe_page probe_offset
        ⟨m', { pg with mode := m' }, setKey statePag key m', true⟩
    | none =>
      let m' := detect_pagination_mode probe_page probe_offset
      ⟨m', { pg with mode := m' }, setKey statePag key m', true⟩

/-- The DNS-resolution-failure test of _network_backoff_if_needed: any of
the three resolver error substrings in the logged error text. -/
def dns_error_match (msg : String) : Bool :=
  containsSubstr msg "nodename nor servname"
  || containsSubstr msg "Name or service not known"
  || containsSubstr msg "Temporary failure in name resolution"

/-- One sleep performed by the fetcher: the exponential retry backoff
inside fetch_json, or the global network backoff inside log_error. -/
inductive SleepEv where
  | networkBackoff (secs : Nat) : SleepEv
  | retryBackoff (secs : Nat) : SleepEv
deriving DecidableEq, Repr

/-- Model of _network_backoff_if_needed, fused with the log_error call site: on a
DNS-matching error text the shared failure counter is incremented and the
erroring task sleeps min(60, 5 * failures); otherwise nothing happens.
Returns the new counter and the sleeps performed. -/
def network_backoff_if_needed (msg : String) (failures : Nat) : Nat × List SleepEv :=
  if dns_error_match msg then
    (failures + 1, [SleepEv.networkBackoff (min 60 (5 * (failures + 1)))])
  else (failures, [])

/-- Outcome of a single HTTP attempt: a JSON body with a 2xx status, a
raise_for_status error with its status code and stringified exception, or a
transport-level exception with its message. -/
inductive HttpOutcome where
  | success (body : Json) : HttpOutcome
  | httpError (status : Nat) (errText : String) : HttpOutcome
  | exn (errText : String) : HttpOutcome

/-- Result of one fetch_json call: the returned payload (none when every
retry failed), the shared DNS-failure counter afterwards, the sleeps
performed, and how many HTTP attempts were made. -/
structure FetchRes where
  result : Option Json
  failures : Nat
  sleeps : List SleepEv
  attempts : Nat

/-- The sentinel dict fetch_json returns for a 404 on a comments path. -/
def not_found_sentinel : Json := Json.obj [("__not_found__", Json.bool true)]

/-- The retry loop of fetch_json. isComments is whether the path ends in
/comments; env gives the outcome of each numbered attempt; curl gives the
result of the curl fallback were it invoked on that attempt; the last
argument is the number of attempts remaining out of max_retries. -/
def fetch_json_go (isComments : Bool) (curlFallback : Bool) (env : Nat → HttpOutcome)
    (curl : Nat → Option Json) (attempt : Nat) (failures : Nat) : Nat → FetchRes
  | 0 => ⟨none, failures, [], attempt - 1⟩
  | rem + 1 =>
    match env attempt with
    | .success body => ⟨some body, 0, [], attempt⟩
    | .httpError status errText =>
      if status = 404 ∧ isComments then
        let nb := network_backoff_if_needed errText failures
        ⟨some not_found_sentinel, nb.1, nb.2, attempt⟩
      else
        let nb := network_backoff_if_needed errText failures
        let r := fetch_json_go isComments curlFallback env curl (attempt + 1) nb.1 rem
        ⟨r.result, r.failures,
          nb.2 ++ [SleepEv.retryBackoff (min (2 ^ attempt) 8)] ++ r.sleeps, r.attempts⟩
    | .exn errText =>
      if curlFallback ∧ containsSubstr errText "nodename nor servname" = true
          ∧ (curl attempt).isSome then
        ⟨curl attempt, 0, [], attempt⟩
      else
        let nb := network_backoff_if_needed errText failures
        let r := fetch_json_go isComments curlFallback env curl (attempt + 1) nb.1 rem
        ⟨r.result, r.failures,
          nb.2 ++ [SleepEv.retryBackoff (min (2 ^ attempt) 8)] ++ r.sleeps, r.attempts⟩

/-- fetch_json with its default of max_retries = 3: attempts are numbered
from 1, and a path ending in /comments turns a 404 into the not-found
sentinel instead of a retry. -/
def fetch_json_run (path : String) (curlFallback : Bool) (env : Nat → HttpOutcome)
    (curl : Nat → Option Json) (failures : Nat) : FetchRes :=
  fetch_json_go (strEnds path "/comments") curlFallback env curl 1 failures 3

/-- load_seen_ids: rebuild a membership ledger from the parsed lines of a
JSONL file (none stands for a blank or undecodable line); only non-empty
string values of the key are collected. The Python set is modelled as a
deduplicated list. -/
def load_seen_ids (lines : List (Option Json)) (key : String) : List String :=
  lines.foldl
    (fun seen l =>
      match l with
      | some (Json.obj fs) =>
        match alistGet fs key with
        | some (Json.str v) => if v ≠ "" ∧ v ∉ seen then seen ++ [v] else seen
        | _ => seen
      | _ => seen)
    []

/-- Python falsiness of an Optional payload, i.e. the test if not payload. -/
def payload_falsy : Option Json → Bool
  | some j => !jsonTruthy j
  | none => true

/-- The test if payload and payload.get("__not_found__") used on comments
payloads. -/
def payload_not_found : Option Json → Bool
  | some j => jsonTruthy j && jsonTruthy (jget j "__not_found__")
  | none => false

/-- The observable effects of one process_post call. -/
structure PostEffects where
  fetchedDetail : Bool
  wrotePost : Bool
  calledWriteComments : Bool
  markedDoneZero : Bool
  calledFetchComments : Bool
  setStop : Bool
deriving DecidableEq, Repr

/-- The embedded comments of a post-detail payload (a list under the
comments key of a dict payload), else the empty list. -/
def detail_comments : Option Json → List Json
  | some (Json.obj fs) =>
    match alistGet fs "comments" with
    | some (Json.arr xs) => xs
    | _ => []
  | _ => []

/-- Whether process_post ends up with a non-None post_obj: any dict detail
payload does (either its post sub-dict or itself), otherwise the listing row
is used when present. -/
def detail_has_post_obj (detail : Option Json) (listing : Option Json) : Bool :=
  match detail with
  | some (Json.obj _) => true
  | _ => listing.isSome

/-- process_post: detail fetch and write for an unseen post (with embedded
comments written when present), the max_posts stop checks, and the
comments-ledger-guarded dispatch to fetch_comments. The detail argument is
what the detail fetch would return; maxPosts = 0 means unlimited. -/
def process_post (maxPosts countsPosts : Nat) (seenPosts commentsDone : List String)
    (skipComments skipZero : Bool) (post_id : String)
    (detail listing : Option Json) (commentCount : Option Int) : PostEffects :=
  if post_id = "" then ⟨false, false, false, false, false, false⟩
  else if maxPosts ≠ 0 ∧ maxPosts ≤ countsPosts then ⟨false, false, false, false, false, true⟩
  else
    let fetched := post_id ∉ seenPosts
    let wroteEmb := fetched ∧ ¬ (detail_comments detail).isEmpty ∧ ¬ skipComments
    let wrote := fetched ∧ detail_has_post_obj detail listing
    let counts' := if wrote then countsPosts + 1 else countsPosts
    if wrote ∧ maxPosts ≠ 0 ∧ maxPosts ≤ counts' then
      ⟨decide fetched, decide wrote, decide wroteEmb, false, false, true⟩
    else if skipComments then ⟨decide fetched, decide wrote, decide wroteEmb, false, false, false⟩
    else if post_id ∉ commentsDone then
      if skipZero ∧ commentCount = some 0 then
        ⟨decide fetched, decide wrote, decide wroteEmb, true, false, false⟩
      else ⟨decide fetched, decide wrote, decide wroteEmb, false, true, false⟩
    else ⟨decide fetched, decide wrote, decide wroteEmb, false, false, false⟩

/-- A comment row's id as collected into the Set[str] seen_ids ledger of
fetch_comments: present, string-valued and truthy. -/
def comment_id : Json → Option String
  | .obj fs =>
    match alistGet fs "id" with
    | some (Json.str s) => if s = "" then none else some s
    | _ => none
  | _ => none

/-- The id list of a comments page. -/
def commentIds (rows : List Json) : List String := rows.filterMap comment_id

/-- fetch_comments in limit mode: a single fetch. Returns whether the
comments-done marker was written and which rows were passed to
write_comments. -/
def fetch_comments_limit (payload : Option Json) : Bool × List Json :=
  if payload_not_found payload then (true, [])
  else if payload_falsy payload then (false, [])
  else (true, extract_list (payload.getD Json.null))

/-- Exit state of the paged fetch_comments loop: the comments Pagination
mode afterwards, the state-level pagination cache afterwards, and the
had_error flag that decides whether the done marker is written. -/
structure CommentsLoopOut where
  mode : String
  statePag : List (String × String)
  hadError : Bool
deriving DecidableEq, Repr

/-- The paged loop of fetch_comments, driven by the successive page
payloads (none once the loop would fetch past the supplied script, which no
theorem here relies on). Checks, in source order: the not-found sentinel, a
falsy payload, an empty row list, a redundant non-first page (forcing the
pagination mode to limit in the state cache), then the max_comment_pages
ceiling after advancing the cursor. -/
def fetch_comments_loop (pg : Pagination) (statePag : List (String × String)) (maxPages : Nat)
    (cursor : Int) (pageIdx : Nat) (seen : List String) :
    List (Option Json) → Option CommentsLoopOut
  | [] => none
  | payload :: rest =>
    if payload_not_found payload then some ⟨pg.mode, statePag, false⟩
    else if payload_falsy payload then some ⟨pg.mode, statePag, true⟩
    else
      let rows := extract_list (payload.getD Json.null)
      if rows.isEmpty then some ⟨pg.mode, statePag, false⟩
      else
        let new_ids := (commentIds rows).filter (fun rid => rid ∉ seen)
        if new_ids.isEmpty ∧ 0 < pageIdx then
          if pg.mode ≠ "limit" then some ⟨"limit", setKey statePag "comments" "limit", false⟩
          else some ⟨pg.mode, statePag, false⟩
        else
          let seen' := seen ++ new_ids
          let cursor' := pg.next_cursor cursor rows.length
          let pageIdx' := pageIdx + 1
          if maxPages ≠ 0 ∧ maxPages ≤ pageIdx' then some ⟨pg.mode, statePag, false⟩
          else fetch_comments_loop pg statePag maxPages cursor' pageIdx' seen' rest

/-- The paged branch of fetch_comments from its initial cursor. -/
def fetch_comments_paged (pg : Pagination) (statePag : List (String × String)) (maxPages : Nat)
    (payloads : List (Option Json)) : Option CommentsLoopOut :=
  fetch_comments_loop pg statePag maxPages (pagination_start pg.mode) 0 [] payloads

/-- After the paged loop (stop signal unset), the comments-done marker is
appended exactly when had_error is false. -/
def comments_marker_written : Option CommentsLoopOut → Bool
  | some out => !out.hadError
  | none => false

/-- Per-sort traversal state persisted in CrawlState: the done and failed
flags and the cursor. -/
structure SortSt where
  done : Bool
  failed : Bool
  cursor : Int
deriving DecidableEq, Repr

/-- Outcome of one page iteration of a listing loop: either the loop breaks
with a final sort state, or it continues with the updated sort state, seen
ids and page index. -/
inductive PageStep where
  | stop : SortSt → PageStep
  | next : SortSt → List String → Nat → PageStep
deriving DecidableEq, Repr

/-- A listing row's id (row.get("id") or row.get("post_id"), kept when
truthy) as collected into the loop's Set[str] seen_ids. -/
def listing_id : Json → Option String
  | .obj fs =>
    match (if jsonTruthy ((alistGet fs "id").getD Json.null)
           then (alistGet fs "id").getD Json.null
           else (alistGet fs "post_id").getD Json.null) with
    | Json.str s => if s = "" then none else some s
    | _ => none
  | _ => none

/-- One iteration of the per-(submolt, sort) page loop of process_submolt,
with the stop signal unset: a falsy payload on the first page marks the sort
done and failed, on a later page explicitly clears done; an empty row list,
a non-first page with no new ids, the max_pages_per_sort ceiling, and
hasMore = false all mark the sort done; otherwise the cursor advances and
the loop continues. -/
def submolt_sort_step (pg : Pagination) (maxPages : Nat) (s : SortSt)
    (seen : List String) (pageIdx : Nat) (payload : Option Json) : PageStep :=
  if payload_falsy payload then
    if pageIdx = 0 then .stop { s with done := true, failed := true }
    else .stop { s with done := false }
  else
    let pl := payload.getD Json.null
    let rows := extract_list pl
    if rows.isEmpty then .stop { s with done := true }
    else
      let hasMore := extract_has_more pl
      let new_ids := (rows.filterMap listing_id).filter (fun rid => rid ∉ seen)
      if new_ids.isEmpty ∧ 0 < pageIdx then .stop { s with done := true }
      else
        let seen' := seen ++ new_ids
        let cursor' := pg.next_cursor s.cursor rows.length
        let pageIdx' := pageIdx + 1
        if maxPages ≠ 0 ∧ maxPages ≤ pageIdx' then .stop { s with cursor := cursor', done := true }
        else if hasMore = some false then .stop { s with cursor := cursor', done := true }
        else .next { s with cursor := cursor' } seen' pageIdx'

/-- One iteration of the per-sort page loop of process_global_posts, with
the stop signal unset. Differences from the submolt loop, as in the source:
a falsy payload on a later page breaks without touching the done flag, the
no-new-ids check compares the cursor against the mode's start instead of the
page index, and the max_posts ceiling breaks (setting the stop signal) after
the cursor advances. -/
def global_sort_step (pg : Pagination) (maxPages maxPosts countsPosts : Nat) (s : SortSt)
    (seen : List String) (pageIdx : Nat) (payload : Option Json) : PageStep :=
  if payload_falsy payload then
    if pageIdx = 0 then .stop { s with done := true, failed := true }
    else .stop s
  else
    let pl := payload.getD Json.null
    let rows := extract_list pl
    if rows.isEmpty then .stop { s with done := true }
    else
      let hasMore := extract_has_more pl
      let new_ids := (rows.filterMap listing_id).filter (fun rid => rid ∉ seen)
      if new_ids.isEmpty ∧ s.cursor ≠ pagination_start pg.mode then .stop { s with done := true }
      else
        let seen' := seen ++ new_ids
        let cursor' := pg.next_cursor s.cursor rows.length
        let pageIdx' := pageIdx + 1
        if maxPages ≠ 0 ∧ maxPages ≤ pageIdx' then .stop { s with cursor := cursor', done := true }
        else if hasMore = some false then .stop { s with cursor := cursor', done := true }
        else if maxPosts ≠ 0 ∧ maxPosts ≤ countsPosts then .stop { s with cursor := cursor' }
        else .next { s with cursor := cursor' } seen' pageIdx'

/-- The fields of one comment record that flatten_comments reads or writes.
Key absence is modelled as none (the source distinguishes an absent key from
a present-but-None value only for depth and thread_path, and no input in
this file carries an explicit None there). -/
structure CFields where
  id : Option String
  post_id : Option String
  parent_id : Option String
  depth : Option Nat
  thread_path : Option String
deriving DecidableEq, Repr

mutual
/-- A comment with its nested replies list. -/
inductive CTree where
  | mk : CFields → CForest → CTree
/-- A list of comments (the replies array), as a mutual inductive so the
flattening recursion is structural. -/
inductive CForest where
  | nil : CForest
  | cons : CTree → CForest → CForest
end

mutual
/-- flatten_comments on one comment: fill in post_id, parent_id, depth and
thread_path exactly as the source does (each only when absent or falsy),
emit the record with its replies removed, then recurse depth-first into a
non-empty replies list with the incremented depth, this comment's id as
parent and its thread path as the base path. -/
def flattenTree (post_id : String) (parent_id : Option String) (depth : Nat)
    (thread_path : Option String) : CTree → List CFields
  | .mk f replies =>
    let cid := f.id
    let f1 :=
      if post_id ≠ "" ∧ ¬ strTruthy f.post_id then { f with post_id := some post_id } else f
    let f2 :=
      if strTruthy parent_id ∧ ¬ strTruthy f1.parent_id then { f1 with parent_id := parent_id }
      else f1
    let f3 := if f2.depth = none then { f2 with depth := some depth } else f2
    let f4 :=
      if f3.thread_path = none then
        let base := if strTruthy thread_path then thread_path.getD "" else post_id
        if base ≠ "" ∧ strTruthy cid then
          { f3 with thread_path := some (base ++ "/" ++ cid.getD "") }
        else if base ≠ "" then { f3 with thread_path := some base }
        else if strTruthy cid then { f3 with thread_path := cid }
        else f3
      else f3
    f4 ::
      (match replies with
       | .nil => []
       | .cons _ _ =>
         flattenForest post_id (if strTruthy cid then cid else parent_id) (depth + 1)
           (if strTruthy f4.thread_path then f4.thread_path else thread_path) replies)

/-- flatten_comments on a comment list: each comment followed depth-first
by its flattened replies. -/
def flattenForest (post_id : String) (parent_id : Option String) (depth : Nat)
    (thread_path : Option String) : CForest → List CFields
  | .nil => []
  | .cons c cs =>
    flattenTree post_id parent_id depth thread_path c
      ++ flattenForest post_id parent_id depth thread_path cs
end

/-- flatten_comments with its default arguments: no parent, depth 0, no
base path. -/
def flatten_comments (comments : CForest) (post_id : String) : List CFields :=
  flattenForest post_id none 0 none comments

/-! Helper lemmas shared by the claim theorems. -/

/-- Looking up the key just written by setKey yields the written value. -/
theorem alistGet_setKey_self {α : Type} (l : List (String × α)) (k : String) (v : α) :
    alistGet (setKey l k v) k = some v := by
  induction l with
  | nil => simp [setKey, alistGet]
  | cons hd tl ih =>
    obtain ⟨k', v'⟩ := hd
    by_cases h : k' = k
    · simp [setKey, h, alistGet]
    · simp [setKey, h, alistGet, ih]

/-- setKey leaves the binding of every other key unchanged. -/
theorem alistGet_setKey_other {α : Type} (l : List (String × α)) (k q : String) (v : α)
    (hne : q ≠ k) : alistGet (setKey l k v) q = alistGet l q := by
  induction l with
  | nil => simp [setKey, alistGet, Ne.symm hne]
  | cons hd tl ih =>
    obtain ⟨k', v'⟩ := hd
    by_cases h : k' = k
    · subst h
      simp [setKey, alistGet, hne, Ne.symm hne]
    · simp [setKey, h, alistGet, ih]

/-- Claim C3: when the configured pagination mode is auto and CrawlState
already stores page, offset or limit for the endpoint key,
ensure_pagination_mode returns the stored mode, installs it on the
Pagination object, leaves the state cache unchanged, and does not probe —
so across the life of the crawl, including restarts on the same state file,
such a key is never re-probed. -/
theorem c3_cached_mode_skips_probe (key : String) (pg : Pagination)
    (st : List (String × String)) (pp po : Option Json) (m : String)
    (hauto : pg.mode = "auto") (hstored : alistGet st key = some m)
    (hm : m = "page" ∨ m = "offset" ∨ m = "limit") :
    ensure_pagination_mode key pg st pp po = ⟨m, { pg with mode := m }, st, false⟩ := by
  simp [ensure_pagination_mode, hauto, hstored, hm]

/-- Witness for C3 at a concrete cached endpoint key. -/
theorem c3_cached_mode_skips_probe_witness :
    ensure_pagination_mode "submolt_posts" (Pagination.mk "auto" 100 0)
        [("submolt_posts", "offset")] none none
      = ⟨"offset", Pagination.mk "offset" 100 0, [("submolt_posts", "offset")], false⟩ :=
  c3_cached_mode_skips_probe "submolt_posts" (Pagination.mk "auto" 100 0)
    [("submolt_posts", "offset")] none none "offset" rfl (by decide)
    (Or.inr (Or.inl rfl))

/-- Claim C4 counterexample: the claim's offset rule "next cursor is c plus
the number of rows returned" fails for a page with zero rows — with
limit 50 and cursor 0, next_cursor returns 50, not 0 + 0. -/
theorem c4_offset_zero_rows_counterexample :
    (Pagination.mk "offset" 50 0).next_cursor 0 0 = 50 ∧
    (Pagination.mk "offset" 50 0).next_cursor 0 0 ≠ 0 + 0 := by decide

/-- Claim C4 (amended): in offset mode the cursor advances by the row count
for any page with at least one row (so 50 rows at limit 50 give c + 50) and
by the configured limit on a zero-row count; in page mode it advances by one
regardless of row count; in limit mode it never advances and the request
parameters carry no cursor, so there is no next page. Listing loops break on
an empty row list before advancing the cursor, so the zero-row fallback is
never reached by a traversal. -/
theorem c4_next_cursor_by_mode (l st c : Int) (n : Nat) (hn : 0 < n) :
    (Pagination.mk "offset" l st).next_cursor c n = c + n ∧
    (∀ m : Nat, (Pagination.mk "page" l st).next_cursor c m = c + 1) ∧
    (∀ m : Nat, (Pagination.mk "limit" l st).next_cursor c m = c) ∧
    (∀ cur : Int, (Pagination.mk "limit" l st).params cur = [("limit", l)]) ∧
    (Pagination.mk "offset" l st).next_cursor c 0 = c + l := by
  refine ⟨?_, ?_, ?_, ?_, ?_⟩ <;>
    simp [Pagination.next_cursor, Pagination.params, hn]

/-- Witness for C4's amended theorem at limit 50 with a 50-row page. -/
theorem c4_next_cursor_by_mode_witness :
    (Pagination.mk "offset" 50 0).next_cursor 10 50 = 10 + ((50 : Nat) : Int) :=
  (c4_next_cursor_by_mode 50 0 10 50 (by decide)).1

/-- Claim C6 counterexample: when both probes return a recognizable but
empty list (here a dict with an empty data array), the claim calls both
probes ambiguous and requires the default "page", but the code returns
"offset". -/
theorem c6_empty_lists_counterexample :
    (probe_rows_flag (some (Json.obj [("data", Json.arr [])]))).1.isEmpty = true ∧
    (probe_rows_flag (some (Json.obj [("data", Json.arr [])]))).2 = true ∧
    detect_pagination_mode (some (Json.obj [("data", Json.arr [])]))
        (some (Json.obj [("data", Json.arr [])])) = "offset" ∧
    ("offset" : String) ≠ "page" := by decide

/-- Claim C6 (amended): the probe issues one request with page=1 and one
with offset=0 at the same limit; if each probe yields a recognizable list
(empty or not), the mode whose probe yielded at least as many results is
chosen, with offset preferred on ties; if only one yields a recognizable
list, that one is chosen; if neither does, the result defaults to page. -/
theorem c6_probe_params_and_decision (pp po : Option Json) (base : List (String × Int))
    (ps : Int) :
    alistGet (probe_params_page base ps) "page" = some 1 ∧
    alistGet (probe_params_page base ps) "limit" = some ps ∧
    alistGet (probe_params_offset base ps) "offset" = some 0 ∧
    alistGet (probe_params_offset base ps) "limit" = some ps ∧
    ((probe_rows_flag pp).2 = true → (probe_rows_flag po).2 = true →
      detect_pagination_mode pp po =
        if (probe_rows_flag pp).1.length ≤ (probe_rows_flag po).1.length then "offset"
        else "page") ∧
    ((probe_rows_flag pp).2 = true → (probe_rows_flag po).2 = false →
      detect_pagination_mode pp po = "page") ∧
    ((probe_rows_flag pp).2 = false → (probe_rows_flag po).2 = true →
      detect_pagination_mode pp po = "offset") ∧
    ((probe_rows_flag pp).2 = false → (probe_rows_flag po).2 = false →
      detect_pagination_mode pp po = "page") := by
  refine ⟨alistGet_setKey_self _ _ _, ?_, alistGet_setKey_self _ _ _, ?_, ?_, ?_, ?_, ?_⟩
  · rw [probe_params_page, alistGet_setKey_other _ _ _ _ (by decide), alistGet_setKey_self]
  · rw [probe_params_offset, alistGet_setKey_other _ _ _ _ (by decide), alistGet_setKey_self]
  · intro h1 h2
    simp [detect_pagination_mode, h1, h2]
  · intro h1 h2
    simp [detect_pagination_mode, h1, h2]
  · intro h1 h2
    simp [detect_pagination_mode, h1, h2]
  · intro h1 h2
    simp [detect_pagination_mode, h1, h2]

/-- Witness for C6's amended theorem: two recognizable probes, the offset
probe returning more rows, resolve to offset. -/
theorem c6_probe_params_and_decision_witness :
    detect_pagination_mode (some (Json.arr [Json.null]))
      (some (Json.arr [Json.null, Json.null])) = "offset" := by
  have h := (c6_probe_params_and_decision (some (Json.arr [Json.null]))
    (some (Json.arr [Json.null, Json.null])) [] 50).2.2.2.2.1 (by decide) (by decide)
  rw [h]
  decide

/-- Claim C10: the comments Pagination is constructed with its limit capped
by min(pageSize, 500), so every comments request carries a limit parameter
of at most 500; the submolt, submolt-posts and global-posts page sizes are
passed through uncapped. -/
theorem c10_comment_limit_capped (a : FetchArgs) (c : Int) :
    (mk_comment_page a).limit = min a.comments_page_size 500 ∧
    (mk_comment_page a).limit ≤ 500 ∧
    ("limit", (mk_comment_page a).limit) ∈ (mk_comment_page a).params c ∧
    (mk_submolt_page a).limit = a.submolts_page_size ∧
    (mk_submolt_posts_page a).limit = a.submolt_posts_page_size ∧
    (mk_global_posts_page a).limit = a.global_posts_page_size := by
  refine ⟨rfl, min_le_right _ _, ?_, rfl, rfl, rfl⟩
  unfold Pagination.params
  split
  · simp
  · split <;> simp

/-- The not-found sentinel satisfies the caller-side test. -/
theorem payload_not_found_sentinel : payload_not_found (some not_found_sentinel) = true := by
  decide

/-- The resolver-failure text matches the DNS-error test. -/
theorem dns_match_nodename : dns_error_match "nodename nor servname" = true := by decide

/-- Claim C1: in both listing-page loops (process_submolt for each submolt
sort and process_global_posts for each global sort), a falsy fetch_json
result on the first page (page index 0) marks the sort state done and
failed, while a falsy result on any later page leaves done false — the
submolt loop writes done := false, the global loop breaks with the state
untouched — and leaves the persisted cursor unchanged, so the sort resumes
from that cursor on the next run. -/
theorem c1_fetch_failure_first_vs_later (pgS pgG : Pagination) (mpS mpG mxP cnt : Nat)
    (s : SortSt) (seenS seenG : List String) (k : Nat) (payload : Option Json)
    (hfail : payload_falsy payload = true) (hk : 0 < k) (hdone : s.done = false) :
    submolt_sort_step pgS mpS s seenS 0 payload = .stop { s with done := true, failed := true } ∧
    submolt_sort_step pgS mpS s seenS k payload = .stop { s with done := false } ∧
    global_sort_step pgG mpG mxP cnt s seenG 0 payload
      = .stop { s with done := true, failed := true } ∧
    global_sort_step pgG mpG mxP cnt s seenG k payload = .stop s ∧
    s.done = false := by
  have hk0 : ¬ k = 0 := Nat.pos_iff_ne_zero.mp hk
  refine ⟨?_, ?_, ?_, ?_, hdone⟩ <;>
    simp [submolt_sort_step, global_sort_step, hfail, hk0]

/-- Witness for C1: a failed first-page fetch on a fresh sort state. -/
theorem c1_fetch_failure_first_vs_later_witness :
    submolt_sort_step (Pagination.mk "offset" 100 0) 0 (SortSt.mk false false 7) [] 0 none
      = PageStep.stop (SortSt.mk true true 7) :=
  (c1_fetch_failure_first_vs_later (Pagination.mk "offset" 100 0)
    (Pagination.mk "page" 100 1) 0 0 0 0 (SortSt.mk false false 7) [] [] 1 none
    (by decide) (by decide) rfl).1

/-- process_post never calls fetch_comments for a post in the done ledger. -/
theorem process_post_done_no_fetch (maxPosts countsPosts : Nat)
    (seenPosts commentsDone : List String) (skipComments skipZero : Bool)
    (post_id : String) (detail listing : Option Json) (cc : Option Int)
    (hmem : post_id ∈ commentsDone) :
    (process_post maxPosts countsPosts seenPosts commentsDone skipComments skipZero post_id
      detail listing cc).calledFetchComments = false := by
  simp only [process_post]
  repeat' split <;> simp_all

/-- Claim C2: a post id in the comments-done ledger — in particular any id
loaded from the comments_done.jsonl lines at startup — is never the target
of a new comments fetch: process_post reaches its fetch_comments call only
under the guard post_id not-in comments_done, so for every run against a
ledger containing the id no fetch is initiated unless the marker is
cleared. -/
theorem c2_comments_done_blocks_refetch (maxPosts countsPosts : Nat)
    (seenPosts commentsDone : List String) (skipComments skipZero : Bool)
    (post_id : String) (detail listing : Option Json) (cc : Option Int)
    (hmem : post_id ∈ commentsDone) :
    (process_post maxPosts countsPosts seenPosts commentsDone skipComments skipZero post_id
      detail listing cc).calledFetchComments = false ∧
    ∀ lines : List (Option Json), post_id ∈ load_seen_ids lines "post_id" →
      (process_post maxPosts countsPosts seenPosts (load_seen_ids lines "post_id") skipComments
        skipZero post_id detail listing cc).calledFetchComments = false := by
  refine ⟨process_post_done_no_fetch _ _ _ _ _ _ _ _ _ _ hmem, ?_⟩
  intro lines hline
  exact process_post_done_no_fetch _ _ _ _ _ _ _ _ _ _ hline

/-- Witness for C2: a ledger loaded from one JSONL line containing p1. -/
theorem c2_comments_done_blocks_refetch_witness :
    (process_post 0 0 [] (load_seen_ids [some (Json.obj [("post_id", Json.str "p1")])] "post_id")
      false true "p1" none none (some 3)).calledFetchComments = false :=
  (c2_comments_done_blocks_refetch 0 0 []
    (load_seen_ids [some (Json.obj [("post_id", Json.str "p1")])] "post_id") false true "p1"
    none none (some 3) (by decide)).1

/-- Claim C5: a 404 on a path ending in /comments makes fetch_json return
the distinguished not-found sentinel on that very attempt — one attempt, no
retry backoff sleeps, the DNS counter untouched — rather than an error, and
both comment-traversal branches treat the sentinel as terminal success:
limit mode writes the done marker with no rows, and the paged loop exits
with had_error false so the done marker is written. -/
theorem c5_comments_404_terminal_not_found (path : String) (cf : Bool)
    (env : Nat → HttpOutcome) (curl : Nat → Option Json) (f : Nat) (errText : String)
    (pg : Pagination) (st : List (String × String)) (mp : Nat) (rest : List (Option Json))
    (hpath : strEnds path "/comments" = true)
    (henv : env 1 = HttpOutcome.httpError 404 errText)
    (hdns : dns_error_match errText = false) :
    (fetch_json_run path cf env curl f).result = some not_found_sentinel ∧
    (fetch_json_run path cf env curl f).attempts = 1 ∧
    (fetch_json_run path cf env curl f).sleeps = [] ∧
    (fetch_json_run path cf env curl f).failures = f ∧
    payload_not_found (some not_found_sentinel) = true ∧
    fetch_comments_limit (some not_found_sentinel) = (true, []) ∧
    fetch_comments_loop pg st mp (pagination_start pg.mode) 0 []
        (some not_found_sentinel :: rest) = some ⟨pg.mode, st, false⟩ ∧
    comments_marker_written (fetch_comments_loop pg st mp (pagination_start pg.mode) 0 []
      (some not_found_sentinel :: rest)) = true := by
  have hrun : fetch_json_run path cf env curl f
      = ⟨some not_found_sentinel, f, [], 1⟩ := by
    simp [fetch_json_run, fetch_json_go, henv, hpath, network_backoff_if_needed, hdns]
  refine ⟨by rw [hrun], by rw [hrun], by rw [hrun], by rw [hrun],
    payload_not_found_sentinel, rfl, ?_, ?_⟩ <;>
    simp [fetch_comments_loop, payload_not_found_sentinel, comments_marker_written]

/-- Witness for C5 at a concrete comments path and 404 outcome. -/
theorem c5_comments_404_terminal_not_found_witness :
    (fetch_json_run "/api/v1/posts/p1/comments" false
      (fun _ => HttpOutcome.httpError 404 "404 Client Error") (fun _ => none) 0).result
      = some not_found_sentinel :=
  (c5_comments_404_terminal_not_found "/api/v1/posts/p1/comments" false
    (fun _ => HttpOutcome.httpError 404 "404 Client Error") (fun _ => none) 0
    "404 Client Error" (Pagination.mk "page" 500 1) [] 0 []
    (by decide) rfl (by decide)).1

/-- Claim C7: in the paged comments loop (mode page or offset), a truthy,
non-sentinel payload whose non-empty row list contributes no comment id not
already seen in this post's traversal, arriving on a non-first page, forces
the comments pagination mode to limit, persists it in the state cache under
the comments key, stops the traversal with had_error false, and therefore
writes the post's comments-done marker. -/
theorem c7_redundant_page_forces_limit (pg : Pagination) (st : List (String × String))
    (mp : Nat) (cursor : Int) (k : Nat) (seen : List String) (payload : Json)
    (rest : List (Option Json))
    (hmode : pg.mode = "page" ∨ pg.mode = "offset")
    (hk : 0 < k)
    (hnf : payload_not_found (some payload) = false)
    (hfalsy : payload_falsy (some payload) = false)
    (hrows : (extract_list payload).isEmpty = false)
    (hnew : ((commentIds (extract_list payload)).filter (fun rid => rid ∉ seen)).isEmpty
      = true) :
    fetch_comments_loop pg st mp cursor k seen (some payload :: rest)
      = some ⟨"limit", setKey st "comments" "limit", false⟩ ∧
    comments_marker_written
      (fetch_comments_loop pg st mp cursor k seen (some payload :: rest)) = true ∧
    alistGet (setKey st "comments" "limit") "comments" = some "limit" := by
  have hlim : ¬ pg.mode = "limit" := by
    rcases hmode with h | h <;> simp [h]
  have hloop : fetch_comments_loop pg st mp cursor k seen (some payload :: rest)
      = some ⟨"limit", setKey st "comments" "limit", false⟩ := by
    simp only [fetch_comments_loop, Option.getD_some]
    rw [if_neg (by rw [hnf]; simp), if_neg (by rw [hfalsy]; simp),
      if_neg (by rw [hrows]; simp), if_pos ⟨hnew, hk⟩, if_pos hlim]
  exact ⟨hloop, by rw [hloop]; rfl, alistGet_setKey_self _ _ _⟩

/-- Witness for C7: a second page repeating the only comment id c1. -/
theorem c7_redundant_page_forces_limit_witness :
    fetch_comments_loop (Pagination.mk "page" 500 1) [] 0 2 1 ["c1"]
        [some (Json.obj [("comments", Json.arr [Json.obj [("id", Json.str "c1")]])])]
      = some ⟨"limit", [("comments", "limit")], false⟩ :=
  (c7_redundant_page_forces_limit (Pagination.mk "page" 500 1) [] 0 2 1 ["c1"]
    (Json.obj [("comments", Json.arr [Json.obj [("id", Json.str "c1")]])]) []
    (Or.inl rfl) (by decide) (by decide) (by decide) (by decide) (by decide)).1

/-- Claim C8: flattening the 3-level nested reply tree c1 containing c2
containing c3 under post id postId walks the replies depth-first and yields
c1 at depth 0 with threadPath postId/c1, c2 at depth 1 with parentId c1 and
threadPath postId/c1/c2, and c3 at depth 2 with parentId c2 and threadPath
postId/c1/c2/c3, each record carrying the propagated post id. -/
theorem c8_flatten_three_level_tree :
    flatten_comments
        (CForest.cons
          (CTree.mk ⟨some "c1", none, none, none, none⟩
            (CForest.cons
              (CTree.mk ⟨some "c2", none, none, none, none⟩
                (CForest.cons (CTree.mk ⟨some "c3", none, none, none, none⟩ CForest.nil)
                  CForest.nil))
              CForest.nil))
          CForest.nil)
        "postId"
      = [⟨some "c1", some "postId", none, some 0, some "postId/c1"⟩,
         ⟨some "c2", some "postId", some "c1", some 1, some "postId/c1/c2"⟩,
         ⟨some "c3", some "postId", some "c2", some 2, some "postId/c1/c2/c3"⟩] := by
  decide

/-- Claim C9 counterexample: with the shared DNS-failure counter at 2, the
claim requires every future request to sleep an additional
min(60, 5 * 2) = 10 seconds before proceeding, but a fetch issued in that
state performs no sleep at all (its trace is empty) — the code sleeps only
inside the error-logging path of the failing call itself — and the
successful fetch resets the counter to zero. -/
theorem c9_future_request_sleeps_nothing_counterexample :
    (fetch_json_run "/api/v1/posts" false (fun _ => HttpOutcome.success Json.null)
        (fun _ => none) 2).sleeps = [] ∧
    SleepEv.networkBackoff (min 60 (5 * 2)) ∉
      (fetch_json_run "/api/v1/posts" false (fun _ => HttpOutcome.success Json.null)
        (fun _ => none) 2).sleeps ∧
    min 60 (5 * 2) = 10 ∧
    (fetch_json_run "/api/v1/posts" false (fun _ => HttpOutcome.success Json.null)
        (fun _ => none) 2).result.isSome = true ∧
    (fetch_json_run "/api/v1/posts" false (fun _ => HttpOutcome.success Json.null)
        (fun _ => none) 2).failures = 0 := by
  decide

/-- Claim C9 (amended): each DNS-resolution failure whose curl fallback
also fails increments the shared failure counter and makes the failing call
itself sleep min(60, 5 * newCount) seconds at that point, before its own
2-second retry backoff; requests are not delayed by the counter afterwards,
and any successful fetch resets the counter to zero. Shown on a trace whose
first attempt fails with a resolver error and whose second succeeds, for an
arbitrary starting counter value. -/
theorem c9_dns_backoff_increments_then_reset (f : Nat) (body : Json) (path : String) :
    (network_backoff_if_needed "nodename nor servname" f).1 = f + 1 ∧
    fetch_json_run path true
        (fun i => if i = 1 then HttpOutcome.exn "nodename nor servname"
                  else HttpOutcome.success body)
        (fun _ => none) f
      = ⟨some body, 0,
          [SleepEv.networkBackoff (min 60 (5 * (f + 1))), SleepEv.retryBackoff 2], 2⟩ := by
  constructor
  · simp [network_backoff_if_needed, dns_match_nodename]
  · simp [fetch_json_run, fetch_json_go, network_backoff_if_needed, dns_match_nodename,
      show containsSubstr "nodename nor servname" "nodename nor servname" = true by decide]

end Moltbook
